import Mathlib

/- Verification of the retrieval-store core of vr4vet/rag-service.

   Shallow embedding of src/src/dao.py and src/src/context.py:
   Python floats are modelled as rationals (the query and stored embeddings),
   with the cosine-similarity value itself living in ℝ; raised exceptions are
   modelled with `Except`; the mutable MongoDB collection, the MockDatabase
   singleton state and the external outcomes (ANN candidate set, insert
   success) are passed explicitly. -/

/-- Exceptions of the store layer: `valueError` models Python `ValueError`
raised by dao.py itself, `invalidInput` models the failure of the similarity
computation (the spec's `InvalidInput`). -/
inductive Err where
  | valueError (msg : String)
  | invalidInput (msg : String)
deriving DecidableEq, Repr

deriving instance DecidableEq for Except

/-- The value object returned to callers (src/src/context.py `Context`:
`text`, `document_name`, optional `NPC`).  The stores construct a `Page`
value with fields text, page_num, document_name; `Page` is not in src/, and
per the spec the returned value object is `Context` with the stored page
number in the role of `NPC`. -/
structure Context where
  text : String
  document_name : String
  NPC : Option Int
deriving DecidableEq, Repr

/-- A record persisted by `post_curriculum` (the dict stored by both
backends): text, pageNum, predictedPageNumber, documentName, embedding,
documentId.  `page_num` is optional because Python checks `page_num is None`
explicitly. -/
structure StoredDoc where
  text : String
  page_num : Option Int
  predicted_page_number : Option Int
  document_name : String
  embedding : List ℚ
  document_id : String
deriving DecidableEq, Repr

/-- The `Page(text=..., page_num=..., document_name=...)` constructed by the
result loops of `get_curriculum`, read as the spec's `Context` value. -/
def docToContext (d : StoredDoc) : Context :=
  ⟨d.text, d.document_name, d.page_num⟩

/-- Dot product of two equal-length vectors (pairwise products, summed). -/
def dot (a b : List ℚ) : ℚ :=
  (List.zipWith (fun x y => x * y) a b).sum

/-- Squared magnitude of a vector, `dot a a`. -/
def normSq (a : List ℚ) : ℚ :=
  dot a a

/-- Modelled from the spec: the `cosine_similarity` function called by
dao.py is not in src/.  Spec 4.1: dot product divided by the product of the
two vectors' magnitudes; inputs must be non-empty, of equal length and of
non-zero magnitude, otherwise the computation fails with `InvalidInput`. -/
noncomputable def cosine_similarity (a b : List ℚ) : Except Err ℝ :=
  if a = [] ∨ b = [] then .error (.invalidInput "empty vector")
  else if a.length ≠ b.length then .error (.invalidInput "vectors must have equal length")
  else if normSq a = 0 ∨ normSq b = 0 then .error (.invalidInput "zero magnitude vector")
  else .ok ((dot a b : ℝ) / (Real.sqrt (normSq a) * Real.sqrt (normSq b)))

/-- Computable form of the comparison `cosine_similarity a b > 0.7` performed
by both `get_curriculum` loops (`similarity_threshold` is the fixed 0.7 set
in both `__init__` methods).  It fails exactly where `cosine_similarity`
fails, and its boolean is equivalent to `0.7 < cosine_similarity a b`
(lemma `simCmp_true_iff_gt` below): for positive magnitudes,
`dot/(sqrt na * sqrt nb) > 7/10` iff `dot > 0` and `100*dot^2 > 49*na*nb`. -/
def simCmp (a b : List ℚ) : Except Err Bool :=
  if a = [] ∨ b = [] then .error (.invalidInput "empty vector")
  else if a.length ≠ b.length then .error (.invalidInput "vectors must have equal length")
  else if normSq a = 0 ∨ normSq b = 0 then .error (.invalidInput "zero magnitude vector")
  else .ok (decide (0 < dot a b ∧ 49 * (normSq a * normSq b) < 100 * (dot a b) ^ 2))

/-- The shared shape of the two `get_curriculum` result loops: walk the
records, skip those outside the requested scope (`keep` is the scope test of
the respective backend), compute the similarity of the query embedding to
the record's embedding (a raised similarity error propagates), and append a
`Context` for each record whose similarity is strictly above the
threshold. -/
def scanDocs (keep : StoredDoc → Bool) (embedding : List ℚ) :
    List StoredDoc → List Context → Except Err (List Context)
  | [], acc => .ok acc
  | d :: rest, acc =>
    if keep d then
      match simCmp embedding d.embedding with
      | .error e => .error e
      | .ok true => scanDocs keep embedding rest (acc ++ [docToContext d])
      | .ok false => scanDocs keep embedding rest acc
    else scanDocs keep embedding rest acc

/-- Embedding of `MockDatabase.get_curriculum(document_name, embedding)` (dao.py 229-247):
raises ValueError on an empty embedding, then linearly filters the in-memory
`data` by `document["document_name"] == document_name` and by
similarity strictly above the 0.7 threshold. -/
def mockGetCurriculum (data : List StoredDoc) (document_name : String)
    (embedding : List ℚ) : Except Err (List Context) :=
  if embedding = [] then .error (.valueError "Embedding cannot be None")
  else scanDocs (fun d => d.document_name == document_name) embedding data []

/-- Embedding of `MongoDB.get_curriculum(document_id, embedding)` (dao.py 81-126): raises
ValueError on an empty embedding; `documents` is the candidate list produced
by the external ANN `$vectorSearch` aggregate (passed here as a parameter);
an empty candidate list raises ValueError; otherwise candidates are filtered
by `document["documentId"] != document_id` (skip) and by exact similarity
strictly above the 0.7 threshold. -/
def mongoGetCurriculum (documents : List StoredDoc) (document_id : String)
    (embedding : List ℚ) : Except Err (List Context) :=
  if embedding = [] then .error (.valueError "Embedding cannot be None")
  else if documents = [] then .error (.valueError "No documents found")
  else scanDocs (fun d => d.document_id == document_id) embedding documents []

/-- Embedding of `MockDatabase.post_curriculum` (dao.py 269-292): raises ValueError when
text or document name is empty, page number is None, or the embedding is
empty; otherwise appends the record to the in-memory data and returns True.
The result pairs the collection after the call (unchanged when the call
raises) with the outcome. -/
def mockPostCurriculum (data : List StoredDoc) (curriculum : String)
    (page_num : Option Int) (predicted_page_number : Option Int)
    (document_name : String) (embedding : List ℚ) (document_id : String) :
    List StoredDoc × Except Err Bool :=
  if curriculum = "" ∨ document_name = "" ∨ page_num = none ∨ embedding = [] then
    (data, .error (.valueError "All parameters are required and must be valid"))
  else
    (data ++ [⟨curriculum, page_num, predicted_page_number, document_name,
              embedding, document_id⟩], .ok true)

/-- Embedding of `MongoDB.post_curriculum` (dao.py 155-193): four ValueError guards in
source order (the `document_name is None` guard cannot fire for a
string-typed argument and has no rational model), then `insert_one` inside
try/except — `insertOk` is the outcome of the external insert; on success
the record is appended and True returned, on any insert failure the
exception is swallowed and False returned. -/
def mongoPostCurriculum (collection : List StoredDoc) (insertOk : Bool)
    (curriculum : String) (page_num : Option Int)
    (predicted_page_number : Option Int) (document_name : String)
    (embedding : List ℚ) (document_id : String) :
    List StoredDoc × Except Err Bool :=
  if curriculum = "" then (collection, .error (.valueError "Curriculum cannot be None"))
  else if page_num = none then (collection, .error (.valueError "Page number cannot be None"))
  else if embedding = [] then (collection, .error (.valueError "Embedding cannot be None"))
  else if document_name = "" then (collection, .error (.valueError "Document name cannot be None"))
  else if insertOk then
    (collection ++ [⟨curriculum, page_num, predicted_page_number, document_name,
                    embedding, document_id⟩], .ok true)
  else (collection, .ok false)

/-- Process-wide state of the MockDatabase singleton: the class-level
`_instance` with its `data` list and `initialized` flag. -/
structure ProcState where
  mockData : List StoredDoc
  mockInit : Bool
deriving DecidableEq, Repr

/-- Embedding of `MockDatabase()` — `__new__` plus `__init__` (dao.py 216-227): the first
construction creates the singleton and sets `data = []`; every later
construction returns the existing instance and, because of the
`initialized` guard, leaves its data untouched. -/
def mockConstruct (s : ProcState) : ProcState :=
  if s.mockInit then s else ⟨[], true⟩

/-- The backend chosen by the selector. -/
inductive Backend where
  | mongodb
  | mock
deriving DecidableEq, Repr

/-- Model of Python `str.lower()` for the ASCII configuration strings used
by the selector. -/
def pyLower (s : String) : String :=
  String.mk (s.data.map Char.toLower)

/-- Embedding of `get_database()` (dao.py 298-311): match on
`RAG_DATABASE_SYSTEM.lower()` — "mock" constructs the MockDatabase (always
the singleton), "mongodb" constructs a MongoDB handle, anything else raises
ValueError("Invalid database type").  The configured kind is a parameter
(it comes from the external configuration), and the process state is
threaded explicitly. -/
def get_database (s : ProcState) (RAG_DATABASE_SYSTEM : String) :
    Except Err (Backend × ProcState) :=
  if pyLower RAG_DATABASE_SYSTEM = "mock" then .ok (.mock, mockConstruct s)
  else if pyLower RAG_DATABASE_SYSTEM = "mongodb" then .ok (.mongodb, s)
  else .error (.valueError "Invalid database type")

/-- A Python class as seen by `Database.__subclasscheck__`: for each of the
three contract methods, `none` means the attribute is absent, `some c` means
it is present and `c` says whether it is callable; `declared_subclass`
records nominal inheritance from `Database` (which the check ignores). -/
structure PyType where
  get_context : Option Bool
  post_context : Option Bool
  is_reachable : Option Bool
  declared_subclass : Bool
deriving DecidableEq, Repr

/-- Test `hasattr(subclass, name) and callable(subclass.name)`. -/
def callableAttr : Option Bool → Bool
  | none => false
  | some c => c

/-- Embedding of `Database.__subclasscheck__` (dao.py 14-20): present-and-callable
`get_context` and present-and-callable `post_context`; nothing else is
inspected. -/
def database_subclasscheck (t : PyType) : Bool :=
  callableAttr t.get_context && callableAttr t.post_context

/-- Embedding of `Database.__instancecheck__` (dao.py 10-12): delegates to
`__subclasscheck__` on the type of the instance. -/
def database_instancecheck (t : PyType) : Bool :=
  database_subclasscheck t

/-- The selection a record must pass to contribute to a `get_curriculum`
result: in scope, and similarity computed with outcome strictly above the
threshold. -/
def isOkTrue : Except Err Bool → Bool
  | .ok true => true
  | _ => false

theorem normSq_nonneg (a : List ℚ) : 0 ≤ normSq a := by
  induction a with
  | nil => simp [normSq, dot]
  | cons x t ih =>
    have hx : normSq (x :: t) = x * x + normSq t := by
      simp [normSq, dot]
    rw [hx]
    exact add_nonneg (mul_self_nonneg x) ih

theorem gt_threshold_iff (x na nb : ℚ) (hna : 0 < na) (hnb : 0 < nb) :
    (0 < x ∧ 49 * (na * nb) < 100 * x ^ 2) ↔
      (7 / 10 : ℝ) < (x : ℝ) / (Real.sqrt na * Real.sqrt nb) := by
  have hna' : (0 : ℝ) < (na : ℝ) := by exact_mod_cast hna
  have hnb' : (0 : ℝ) < (nb : ℝ) := by exact_mod_cast hnb
  have hmul : Real.sqrt (na : ℝ) * Real.sqrt (nb : ℝ) = Real.sqrt ((na : ℝ) * nb) :=
    (Real.sqrt_mul hna'.le _).symm
  rw [hmul]
  have hmpos : 0 < Real.sqrt ((na : ℝ) * nb) := Real.sqrt_pos.mpr (mul_pos hna' hnb')
  have hmsq : Real.sqrt ((na : ℝ) * nb) ^ 2 = (na : ℝ) * nb :=
    Real.sq_sqrt (mul_pos hna' hnb').le
  rw [lt_div_iff hmpos]
  constructor
  · rintro ⟨hx, hlt⟩
    have hx' : (0 : ℝ) < (x : ℝ) := by exact_mod_cast hx
    have hlt' : 49 * ((na : ℝ) * nb) < 100 * (x : ℝ) ^ 2 := by exact_mod_cast hlt
    nlinarith [hmpos, hmsq, hx', hlt',
      mul_self_nonneg (7 * Real.sqrt ((na : ℝ) * nb) - 10 * (x : ℝ))]
  · intro h
    have hx' : (0 : ℝ) < (x : ℝ) := by nlinarith [hmpos]
    have h49 : 49 * ((na : ℝ) * nb) < 100 * (x : ℝ) ^ 2 := by
      nlinarith [mul_pos (show (0 : ℝ) < 10 * (x : ℝ) - 7 * Real.sqrt ((na : ℝ) * nb) by nlinarith [hmpos])
        (show (0 : ℝ) < 10 * (x : ℝ) + 7 * Real.sqrt ((na : ℝ) * nb) by nlinarith [hmpos]), hmsq]
    constructor
    · exact_mod_cast hx'
    · exact_mod_cast h49

theorem simCmp_error_iff (a b : List ℚ) (e : Err) :
    simCmp a b = .error e ↔ cosine_similarity a b = .error e := by
  unfold simCmp cosine_similarity
  split_ifs <;> simp

theorem simCmp_true_iff_gt (a b : List ℚ) (s : ℝ)
    (h : cosine_similarity a b = .ok s) :
    (simCmp a b = .ok true ↔ (7 / 10 : ℝ) < s) := by
  unfold cosine_similarity at h
  unfold simCmp
  by_cases h1 : a = [] ∨ b = []
  · rw [if_pos h1] at h; exact absurd h (by simp)
  by_cases h2 : a.length ≠ b.length
  · rw [if_neg h1, if_pos h2] at h; exact absurd h (by simp)
  by_cases h3 : normSq a = 0 ∨ normSq b = 0
  · rw [if_neg h1, if_neg h2, if_pos h3] at h; exact absurd h (by simp)
  rw [if_neg h1, if_neg h2, if_neg h3] at h
  rw [if_neg h1, if_neg h2, if_neg h3]
  have hs : (dot a b : ℝ) / (Real.sqrt (normSq a) * Real.sqrt (normSq b)) = s :=
    Except.ok.inj h
  push_neg at h3
  have hna : 0 < normSq a := lt_of_le_of_ne (normSq_nonneg a) (Ne.symm h3.1)
  have hnb : 0 < normSq b := lt_of_le_of_ne (normSq_nonneg b) (Ne.symm h3.2)
  rw [← hs]
  simp only [Except.ok.injEq, decide_eq_true_eq]
  exact gt_threshold_iff (dot a b) (normSq a) (normSq b) hna hnb

theorem simCmp_eq_threshold_false (a b : List ℚ)
    (h : cosine_similarity a b = .ok ((7 : ℝ) / 10)) :
    simCmp a b = .ok false := by
  have hex : ∃ c, simCmp a b = .ok c := by
    unfold cosine_similarity at h
    unfold simCmp
    split_ifs at h ⊢ <;> simp_all
  obtain ⟨c, hc⟩ := hex
  cases c
  · exact hc
  · have := (simCmp_true_iff_gt a b _ h).mp hc
    exact absurd this (by norm_num)

theorem scanDocs_cons (keep : StoredDoc → Bool) (emb : List ℚ) (d : StoredDoc)
    (rest : List StoredDoc) (acc : List Context) :
    scanDocs keep emb (d :: rest) acc =
      if keep d then
        match simCmp emb d.embedding with
        | .error e => .error e
        | .ok true => scanDocs keep emb rest (acc ++ [docToContext d])
        | .ok false => scanDocs keep emb rest acc
      else scanDocs keep emb rest acc := rfl

theorem scanDocs_ok_iff (keep : StoredDoc → Bool) (emb : List ℚ) :
    ∀ (data : List StoredDoc) (acc ps : List Context),
      scanDocs keep emb data acc = .ok ps ↔
        ((∀ d ∈ data, keep d = true → ∃ c, simCmp emb d.embedding = .ok c) ∧
         ps = acc ++ (data.filter fun d =>
           keep d && isOkTrue (simCmp emb d.embedding)).map docToContext) := by
  intro data
  induction data with
  | nil =>
    intro acc ps
    show Except.ok acc = .ok ps ↔ _
    constructor
    · intro h
      have hacc := Except.ok.inj h
      subst hacc
      simp
    · rintro ⟨-, hps⟩
      simp only [List.filter_nil, List.map_nil, List.append_nil] at hps
      rw [hps]
  | cons d rest ih =>
    intro acc ps
    by_cases hk : keep d = true
    · rcases hs : simCmp emb d.embedding with e | c
      · have hL : scanDocs keep emb (d :: rest) acc = .error e := by
          rw [scanDocs_cons, if_pos hk, hs]
        rw [hL]
        constructor
        · intro hcon; exact Except.noConfusion hcon
        · rintro ⟨hall, -⟩
          obtain ⟨c, hc⟩ := hall d (by simp) hk
          rw [hs] at hc
          exact Except.noConfusion hc
      · cases c
        · have hL : scanDocs keep emb (d :: rest) acc = scanDocs keep emb rest acc := by
            rw [scanDocs_cons, if_pos hk, hs]
          rw [hL, ih acc ps]
          simp [List.filter_cons, hk, hs, isOkTrue]
        · have hL : scanDocs keep emb (d :: rest) acc
              = scanDocs keep emb rest (acc ++ [docToContext d]) := by
            rw [scanDocs_cons, if_pos hk, hs]
          rw [hL, ih (acc ++ [docToContext d]) ps]
          simp [List.filter_cons, hk, hs, isOkTrue, List.append_assoc]
    · have hk' : keep d = false := by simpa using hk
      have hL : scanDocs keep emb (d :: rest) acc = scanDocs keep emb rest acc := by
        rw [scanDocs_cons, if_neg hk]
      rw [hL, ih acc ps]
      simp [List.filter_cons, hk']

theorem mockGetCurriculum_ok_iff (data : List StoredDoc) (name : String)
    (emb : List ℚ) (ps : List Context) :
    mockGetCurriculum data name emb = .ok ps ↔
      (emb ≠ [] ∧
       (∀ d ∈ data, d.document_name = name → ∃ c, simCmp emb d.embedding = .ok c) ∧
       ps = (data.filter fun d =>
         (d.document_name == name) && isOkTrue (simCmp emb d.embedding)).map docToContext) := by
  unfold mockGetCurriculum
  split_ifs with he
  · simp [he]
  · rw [scanDocs_ok_iff]
    simp [he]

theorem mongoGetCurriculum_ok_iff (documents : List StoredDoc) (did : String)
    (emb : List ℚ) (ps : List Context) :
    mongoGetCurriculum documents did emb = .ok ps ↔
      (emb ≠ [] ∧ documents ≠ [] ∧
       (∀ d ∈ documents, d.document_id = did → ∃ c, simCmp emb d.embedding = .ok c) ∧
       ps = (documents.filter fun d =>
         (d.document_id == did) && isOkTrue (simCmp emb d.embedding)).map docToContext) := by
  unfold mongoGetCurriculum
  split_ifs with he hd
  · simp [he]
  · simp [he, hd]
  · rw [scanDocs_ok_iff]
    simp [he, hd]

theorem simCmp_ok_guards (a b : List ℚ) (c : Bool) (h : simCmp a b = .ok c) :
    a ≠ [] ∧ b ≠ [] ∧ a.length = b.length ∧ normSq a ≠ 0 ∧ normSq b ≠ 0 := by
  unfold simCmp at h
  by_cases h1 : a = [] ∨ b = []
  · rw [if_pos h1] at h; exact absurd h (by simp)
  by_cases h2 : a.length ≠ b.length
  · rw [if_neg h1, if_pos h2] at h; exact absurd h (by simp)
  by_cases h3 : normSq a = 0 ∨ normSq b = 0
  · rw [if_neg h1, if_neg h2, if_pos h3] at h; exact absurd h (by simp)
  push_neg at h1 h3
  exact ⟨h1.1, h1.2, not_not.mp h2, h3.1, h3.2⟩

theorem simCmp_self (E : List ℚ) (hE : E ≠ []) (hn : normSq E ≠ 0) :
    simCmp E E = .ok true := by
  have hpos : 0 < normSq E := lt_of_le_of_ne (normSq_nonneg E) (Ne.symm hn)
  unfold simCmp
  rw [if_neg (by simp [hE]), if_neg (by simp), if_neg (by simp [hn])]
  have harith : 0 < dot E E ∧ 49 * (normSq E * normSq E) < 100 * dot E E ^ 2 := by
    refine ⟨hpos, ?_⟩
    have hsq : (dot E E : ℚ) ^ 2 = normSq E * normSq E := by
      rw [sq]; rfl
    rw [hsq]
    nlinarith [hpos]
  simp only [Except.ok.injEq, decide_eq_true_eq]
  exact harith

theorem mockPost_ok_inv (data : List StoredDoc) (text : String) (pn ppn : Option Int)
    (name : String) (emb : List ℚ) (did : String) (data2 : List StoredDoc)
    (h : mockPostCurriculum data text pn ppn name emb did = (data2, .ok true)) :
    text ≠ "" ∧ name ≠ "" ∧ pn ≠ none ∧ emb ≠ [] ∧
      data2 = data ++ [⟨text, pn, ppn, name, emb, did⟩] := by
  unfold mockPostCurriculum at h
  split_ifs at h with hg
  · exact absurd (congrArg Prod.snd h) (by simp)
  · push_neg at hg
    exact ⟨hg.1, hg.2.1, hg.2.2.1, hg.2.2.2, (congrArg Prod.fst h).symm⟩

theorem simCmp_one_one : simCmp [1] [1] = .ok true := by
  apply simCmp_self
  · simp
  · norm_num [normSq, dot]

theorem eval_get_single :
    mockGetCurriculum [⟨"alpha", some 1, none, "doc1", [1], "d1"⟩] "doc1" [1]
      = .ok [⟨"alpha", "doc1", some 1⟩] := by
  rw [mockGetCurriculum, if_neg (by simp), scanDocs_cons]
  rw [if_pos (by simp), simCmp_one_one]
  rfl

theorem cosine_seven_tenths :
    cosine_similarity [1, 0, 0, 0] [7, 7, 1, 1] = .ok ((7 : ℝ) / 10) := by
  have hna : normSq [(1 : ℚ), 0, 0, 0] = 1 := by norm_num [normSq, dot]
  have hnb : normSq [(7 : ℚ), 7, 1, 1] = 100 := by norm_num [normSq, dot]
  have hdot : dot [(1 : ℚ), 0, 0, 0] [7, 7, 1, 1] = 7 := by norm_num [dot]
  rw [cosine_similarity, if_neg (by simp), if_neg (by simp), if_neg (by simp [hna, hnb])]
  rw [hna, hnb, hdot]
  norm_num
  rw [show (100 : ℝ) = 10 ^ 2 by norm_num, Real.sqrt_sq (by norm_num)]

theorem simCmp_orth : simCmp [1, 0] [0, 1] = .ok false := by
  rw [simCmp, if_neg (by simp), if_neg (by simp), if_neg (by norm_num [normSq, dot])]
  simp only [Except.ok.injEq, decide_eq_false_iff_not]
  norm_num [dot]

/-- Claim C1: when no stored candidate qualifies, getContext should return an
empty result and not raise.  The in-memory backend conforms (empty store, or a
candidate that is out of scope or below threshold, gives an empty ok result),
but the persistent backend raises ValueError("No documents found") when the
ANN candidate set is empty — evaluating the embedded code at that failing
input exhibits the divergence. -/
theorem c1_no_match_behaviour :
    mongoGetCurriculum [] "d1" [1] = .error (.valueError "No documents found")
  ∧ mockGetCurriculum [] "d1" [1] = .ok []
  ∧ mongoGetCurriculum [⟨"t", some 1, none, "doc1", [0, 1], "d1"⟩] "d1" [1, 0] = .ok []
  ∧ mockGetCurriculum [⟨"t", some 1, none, "doc1", [0, 1], "d1"⟩] "doc1" [1, 0] = .ok [] := by
  refine ⟨rfl, rfl, ?_, ?_⟩
  · rw [mongoGetCurriculum, if_neg (by simp), if_neg (by simp), scanDocs_cons,
      if_pos (by simp), simCmp_orth]
    rfl
  · rw [mockGetCurriculum, if_neg (by simp), scanDocs_cons,
      if_pos (by simp), simCmp_orth]
    rfl

/-- Claim C2 counterexample: after posting text "alpha" with document name
"doc1" and document id "d1" to the in-memory store, a getContext with scope
"d1" — as the claim states it — returns the empty set, because the in-memory
backend filters on the stored document NAME, not the document id; the
promised Context is not in the (empty) result. -/
theorem c2_counterexample :
    mockPostCurriculum [] "alpha" (some 1) none "doc1" [1] "d1"
      = ([⟨"alpha", some 1, none, "doc1", [1], "d1"⟩], .ok true)
  ∧ mockGetCurriculum [⟨"alpha", some 1, none, "doc1", [1], "d1"⟩] "d1" [1] = .ok []
  ∧ (⟨"alpha", "doc1", some 1⟩ : Context) ∉ ([] : List Context) := by
  refine ⟨?_, ?_, by simp⟩
  · rw [mockPostCurriculum, if_neg (by simp)]
    rfl
  · rw [mockGetCurriculum, if_neg (by simp), scanDocs_cons, if_neg (by decide)]
    rfl

/-- Claim C2 (amended): after postContext(text "alpha", documentName "doc1",
npc 1, embedding E, documentId "d1") succeeds, a subsequent getContext that
completes with the same embedding E — with scope "doc1" on the in-memory
store (it scopes by document name), or scope "d1" on the persistent store
provided the inserted record is among the ANN candidates — returns a set
containing Context(text "alpha", document_name "doc1", NPC 1), because
self-similarity of E exceeds the 0.7 threshold. -/
theorem c2_post_then_get_contains (data data' docs coll coll' : List StoredDoc)
    (E : List ℚ) (ppn : Option Int) :
    (∀ ps, mockPostCurriculum data "alpha" (some 1) ppn "doc1" E "d1" = (data', .ok true) →
       mockGetCurriculum data' "doc1" E = .ok ps →
       Context.mk "alpha" "doc1" (some 1) ∈ ps)
  ∧ (∀ ps, mongoPostCurriculum coll true "alpha" (some 1) ppn "doc1" E "d1" = (coll', .ok true) →
       (⟨"alpha", some 1, ppn, "doc1", E, "d1"⟩ : StoredDoc) ∈ docs →
       mongoGetCurriculum docs "d1" E = .ok ps →
       Context.mk "alpha" "doc1" (some 1) ∈ ps) := by
  constructor
  · intro ps hpost hget
    obtain ⟨-, -, -, -, hdata⟩ := mockPost_ok_inv _ _ _ _ _ _ _ _ hpost
    subst hdata
    rw [mockGetCurriculum_ok_iff] at hget
    obtain ⟨hne, hall, hps⟩ := hget
    have hmem : (⟨"alpha", some 1, ppn, "doc1", E, "d1"⟩ : StoredDoc)
        ∈ data ++ [⟨"alpha", some 1, ppn, "doc1", E, "d1"⟩] := by simp
    obtain ⟨c, hc⟩ := hall _ hmem rfl
    obtain ⟨hEne, -, -, hn0, -⟩ := simCmp_ok_guards _ _ _ hc
    have htrue : simCmp E E = .ok true := simCmp_self E hEne hn0
    rw [hps]
    exact List.mem_map.mpr ⟨_, List.mem_filter.mpr ⟨hmem, by simp [htrue, isOkTrue]⟩, rfl⟩
  · intro ps hpost hmem hget
    rw [mongoGetCurriculum_ok_iff] at hget
    obtain ⟨hne, hdocs, hall, hps⟩ := hget
    obtain ⟨c, hc⟩ := hall _ hmem rfl
    obtain ⟨hEne, -, -, hn0, -⟩ := simCmp_ok_guards _ _ _ hc
    have htrue : simCmp E E = .ok true := simCmp_self E hEne hn0
    rw [hps]
    exact List.mem_map.mpr ⟨_, List.mem_filter.mpr ⟨hmem, by simp [htrue, isOkTrue]⟩, rfl⟩

/-- Witness for claim C2's amended theorem at a concrete input: posting on
the empty in-memory store and reading back with scope "doc1" and the same
embedding yields the posted Context. -/
theorem c2_witness : Context.mk "alpha" "doc1" (some 1)
    ∈ [Context.mk "alpha" "doc1" (some 1)] :=
  (c2_post_then_get_contains [] [⟨"alpha", some 1, none, "doc1", [1], "d1"⟩]
      [] [] [] [1] none).1 [⟨"alpha", "doc1", some 1⟩]
    (by rw [mockPostCurriculum, if_neg (by simp)]; rfl) eval_get_single

/-- Claim C6: posting with empty text fails on both backends with the
backend's ValueError and stores nothing — the collection is returned
unchanged, so a subsequent getContext over it is unchanged. -/
theorem c6_empty_text_rejected (data coll : List StoredDoc) (insertOk : Bool)
    (pn ppn : Option Int) (name : String) (emb : List ℚ) (did : String) :
    mockPostCurriculum data "" pn ppn name emb did
      = (data, .error (.valueError "All parameters are required and must be valid"))
  ∧ (∀ q e, mockGetCurriculum (mockPostCurriculum data "" pn ppn name emb did).1 q e
        = mockGetCurriculum data q e)
  ∧ mongoPostCurriculum coll insertOk "" pn ppn name emb did
      = (coll, .error (.valueError "Curriculum cannot be None")) := by
  have h1 : mockPostCurriculum data "" pn ppn name emb did
      = (data, .error (.valueError "All parameters are required and must be valid")) := by
    rw [mockPostCurriculum, if_pos (by simp)]
  refine ⟨h1, fun q e => by rw [h1], ?_⟩
  rw [mongoPostCurriculum, if_pos rfl]

/-- Claim C7: for the persistent backend with all preconditions satisfied,
a failing insert makes postContext return False (no raised error), and a
succeeding insert appends the record and returns True. -/
theorem c7_transient_insert_failure (coll : List StoredDoc) (curriculum : String)
    (pn ppn : Option Int) (name : String) (emb : List ℚ) (did : String)
    (hc : curriculum ≠ "") (hpn : pn ≠ none) (he : emb ≠ []) (hn : name ≠ "") :
    mongoPostCurriculum coll false curriculum pn ppn name emb did = (coll, .ok false)
  ∧ mongoPostCurriculum coll true curriculum pn ppn name emb did
      = (coll ++ [⟨curriculum, pn, ppn, name, emb, did⟩], .ok true) := by
  constructor <;> simp [mongoPostCurriculum, hc, hpn, he, hn]

/-- Witness for claim C7 at a concrete input. -/
theorem c7_witness :
    mongoPostCurriculum [] false "alpha" (some 1) none "doc1" [1] "d1" = ([], .ok false)
  ∧ mongoPostCurriculum [] true "alpha" (some 1) none "doc1" [1] "d1"
      = ([⟨"alpha", some 1, none, "doc1", [1], "d1"⟩], .ok true) :=
  c7_transient_insert_failure [] "alpha" (some 1) none "doc1" [1] "d1"
    (by decide) (by simp) (by simp) (by decide)

/-- Claim C3: on both backends, a successful getContext returns exactly the
in-scope records whose similarity passes the strict threshold test, and the
test is equivalent to the exact cosine similarity being strictly greater
than 0.7 — a record whose similarity equals 0.7 fails the gate. -/
theorem c3_threshold_gate (emb : List ℚ) :
    (∀ data name ps, mockGetCurriculum data name emb = .ok ps →
       ps = (data.filter fun d =>
         (d.document_name == name) && isOkTrue (simCmp emb d.embedding)).map docToContext)
  ∧ (∀ docs did ps, mongoGetCurriculum docs did emb = .ok ps →
       ps = (docs.filter fun d =>
         (d.document_id == did) && isOkTrue (simCmp emb d.embedding)).map docToContext)
  ∧ (∀ b s, cosine_similarity emb b = .ok s →
       ((simCmp emb b = .ok true ↔ (7 / 10 : ℝ) < s)
        ∧ (s = 7 / 10 → simCmp emb b = .ok false))) := by
  refine ⟨?_, ?_, ?_⟩
  · intro data name ps h
    exact ((mockGetCurriculum_ok_iff data name emb ps).mp h).2.2
  · intro docs did ps h
    exact ((mongoGetCurriculum_ok_iff docs did emb ps).mp h).2.2.2
  · intro b s h
    refine ⟨simCmp_true_iff_gt emb b s h, ?_⟩
    intro hs
    rw [hs] at h
    exact simCmp_eq_threshold_false emb b h

/-- Witness for claim C3: a self-similar record (similarity 1) is returned,
and the vectors (1,0,0,0) and (7,7,1,1), whose exact cosine similarity is
exactly 0.7, fail the gate. -/
theorem c3_witness :
    ([⟨"alpha", "doc1", some 1⟩] : List Context)
      = (([⟨"alpha", some 1, none, "doc1", [1], "d1"⟩] : List StoredDoc).filter fun d =>
          (d.document_name == "doc1") && isOkTrue (simCmp [1] d.embedding)).map docToContext
  ∧ simCmp [1, 0, 0, 0] [7, 7, 1, 1] = .ok false := by
  constructor
  · exact (c3_threshold_gate [1]).1 _ "doc1" _ eval_get_single
  · exact ((c3_threshold_gate [1, 0, 0, 0]).2.2 [7, 7, 1, 1] (7 / 10) cosine_seven_tenths).2 rfl

/-- Claim C4: every Context a successful getContext returns originates from
a record of the scanned data whose document scope (document name on the
in-memory store, document id on the persistent store) equals the requested
scope; no out-of-scope record is ever returned. -/
theorem c4_scope_invariant (emb : List ℚ) :
    (∀ data name ps, mockGetCurriculum data name emb = .ok ps →
       ∀ p ∈ ps, ∃ d ∈ data, d.document_name = name ∧ p = docToContext d)
  ∧ (∀ docs did ps, mongoGetCurriculum docs did emb = .ok ps →
       ∀ p ∈ ps, ∃ d ∈ docs, d.document_id = did ∧ p = docToContext d) := by
  constructor
  · intro data name ps h p hp
    obtain ⟨-, -, hps⟩ := (mockGetCurriculum_ok_iff data name emb ps).mp h
    rw [hps] at hp
    obtain ⟨d, hdf, hpd⟩ := List.mem_map.mp hp
    obtain ⟨hdd, hpred⟩ := List.mem_filter.mp hdf
    exact ⟨d, hdd, eq_of_beq ((Bool.and_eq_true _ _).mp hpred).1, hpd.symm⟩
  · intro docs did ps h p hp
    obtain ⟨-, -, -, hps⟩ := (mongoGetCurriculum_ok_iff docs did emb ps).mp h
    rw [hps] at hp
    obtain ⟨d, hdf, hpd⟩ := List.mem_map.mp hp
    obtain ⟨hdd, hpred⟩ := List.mem_filter.mp hdf
    exact ⟨d, hdd, eq_of_beq ((Bool.and_eq_true _ _).mp hpred).1, hpd.symm⟩

/-- Witness for claim C4 at a concrete input. -/
theorem c4_witness :
    ∃ d ∈ ([⟨"alpha", some 1, none, "doc1", [1], "d1"⟩] : List StoredDoc),
      d.document_name = "doc1" ∧ (⟨"alpha", "doc1", some 1⟩ : Context) = docToContext d :=
  (c4_scope_invariant [1]).1 _ "doc1" _ eval_get_single _ (by simp)

/-- Claim C5: the in-memory backend is one shared process-wide instance:
constructing it again on an initialized state is the identity (no reset of
stored data), the selector with kind "mock" hands back that same state, and
a record posted through one reference is in the data seen by a reference
obtained afterwards, whose getContext results coincide with those over the
post-state. -/
theorem c5_shared_mock_instance (s : ProcState) (h : s.mockInit = true) :
    mockConstruct s = s
  ∧ get_database s "mock" = .ok (.mock, s)
  ∧ (∀ text pn ppn name emb did data2,
       mockPostCurriculum s.mockData text pn ppn name emb did = (data2, .ok true) →
       ((⟨text, pn, ppn, name, emb, did⟩ : StoredDoc)
           ∈ (mockConstruct ⟨data2, s.mockInit⟩).mockData
        ∧ ∀ q e, mockGetCurriculum (mockConstruct ⟨data2, s.mockInit⟩).mockData q e
              = mockGetCurriculum data2 q e)) := by
  have hc : mockConstruct s = s := by rw [mockConstruct, if_pos h]
  have hc2 : ∀ dta : List StoredDoc, mockConstruct ⟨dta, s.mockInit⟩ = ⟨dta, s.mockInit⟩ := by
    intro dta
    rw [mockConstruct]
    exact if_pos h
  refine ⟨hc, ?_, ?_⟩
  · rw [get_database, if_pos (by rfl), hc]
  · intro text pn ppn name emb did data2 hpost
    obtain ⟨-, -, -, -, hdata⟩ := mockPost_ok_inv _ _ _ _ _ _ _ _ hpost
    rw [hc2 data2]
    exact ⟨by rw [hdata]; simp, fun q e => rfl⟩

/-- Witness for claim C5 at a concrete state and post. -/
theorem c5_witness :
    ((⟨"alpha", some 1, none, "doc1", [1], "d1"⟩ : StoredDoc)
        ∈ (mockConstruct ⟨[⟨"alpha", some 1, none, "doc1", [1], "d1"⟩], true⟩).mockData)
  ∧ mockGetCurriculum
        (mockConstruct ⟨[⟨"alpha", some 1, none, "doc1", [1], "d1"⟩], true⟩).mockData
        "doc1" [1]
      = mockGetCurriculum [⟨"alpha", some 1, none, "doc1", [1], "d1"⟩] "doc1" [1] :=
  ⟨((c5_shared_mock_instance ⟨[], true⟩ rfl).2.2 "alpha" (some 1) none "doc1" [1] "d1"
      [⟨"alpha", some 1, none, "doc1", [1], "d1"⟩]
      (by rw [mockPostCurriculum, if_neg (by simp)]; rfl)).1,
   ((c5_shared_mock_instance ⟨[], true⟩ rfl).2.2 "alpha" (some 1) none "doc1" [1] "d1"
      [⟨"alpha", some 1, none, "doc1", [1], "d1"⟩]
      (by rw [mockPostCurriculum, if_neg (by simp)]; rfl)).2 "doc1" [1]⟩

/-- Claim C8 counterexample: the configured kind "MOCK" differs from both
recognized literals, yet the selector does not fail — it lowercases the
value and returns the in-memory backend, refuting "fails for every other
configured kind" as literally stated. -/
theorem c8_counterexample :
    "MOCK" ≠ "mock" ∧ "MOCK" ≠ "mongodb"
  ∧ get_database ⟨[], false⟩ "MOCK" = .ok (.mock, ⟨[], true⟩) := by
  refine ⟨by decide, by decide, ?_⟩
  rw [get_database, if_pos (by decide)]
  rfl

/-- Claim C8 (amended): the selector maps any configured kind whose
lowercased form is "mongodb" to the persistent backend, any whose lowercased
form is "mock" to the shared in-memory instance, and fails with
ValueError("Invalid database type") for every configured kind whose
lowercased form is neither. -/
theorem c8_selector_amended (s : ProcState) (k : String) :
    (pyLower k = "mongodb" → get_database s k = .ok (.mongodb, s))
  ∧ (pyLower k = "mock" → get_database s k = .ok (.mock, mockConstruct s))
  ∧ (pyLower k ≠ "mongodb" → pyLower k ≠ "mock" →
       get_database s k = .error (.valueError "Invalid database type")) := by
  refine ⟨?_, ?_, ?_⟩
  · intro h
    rw [get_database, if_neg (by rw [h]; decide), if_pos h]
  · intro h
    rw [get_database, if_pos h]
  · intro h1 h2
    rw [get_database, if_neg h2, if_neg h1]

/-- Witness for claim C8's amended theorem: an unrecognized kind fails. -/
theorem c8_witness :
    get_database ⟨[], true⟩ "postgres" = .error (.valueError "Invalid database type") :=
  (c8_selector_amended ⟨[], true⟩ "postgres").2.2 (by decide) (by decide)

/-- Claim C9: the Database capability check is structural and partial — it
passes exactly when the type has callable get_context and post_context
attributes, ignores is_reachable and nominal inheritance entirely, and the
instance check delegates to the same type-level test. -/
theorem c9_structural_capability (t : PyType) (b : Bool) :
    (database_subclasscheck t = true ↔
       callableAttr t.get_context = true ∧ callableAttr t.post_context = true)
  ∧ database_subclasscheck ⟨t.get_context, t.post_context, none, t.declared_subclass⟩
      = database_subclasscheck t
  ∧ database_subclasscheck ⟨t.get_context, t.post_context, t.is_reachable, b⟩
      = database_subclasscheck t
  ∧ database_instancecheck t = database_subclasscheck t :=
  ⟨by rw [show database_subclasscheck t
        = (callableAttr t.get_context && callableAttr t.post_context) from rfl,
      Bool.and_eq_true], rfl, rfl, rfl⟩

/-- Claim C10: backend selection lowercases the configured kind before
matching, so any capitalization variant of "mock" or "mongodb" selects the
corresponding backend instead of failing. -/
theorem c10_case_insensitive_selection (s : ProcState) (k : String) :
    (pyLower k = "mock" → get_database s k = .ok (.mock, mockConstruct s))
  ∧ (pyLower k = "mongodb" → get_database s k = .ok (.mongodb, s))
  ∧ get_database s "MOCK" = .ok (.mock, mockConstruct s)
  ∧ get_database s "MongoDB" = .ok (.mongodb, s) := by
  refine ⟨?_, ?_, ?_, ?_⟩
  · intro h
    rw [get_database, if_pos h]
  · intro h
    rw [get_database, if_neg (by rw [h]; decide), if_pos h]
  · rw [get_database, if_pos (by decide)]
  · rw [get_database, if_neg (by decide), if_pos (by decide)]

/-- Witness for claim C10 at a mixed-capitalization kind. -/
theorem c10_witness :
    get_database ⟨[], true⟩ "mOcK" = .ok (.mock, mockConstruct ⟨[], true⟩) :=
  (c10_case_insensitive_selection ⟨[], true⟩ "mOcK").1 (by decide)
